import Mathlib

/-!
Verification of the augmentation-cache layer demonstrated in
`examples/augmentations_example.ipynb` of DeepTrack-2.0.

The notebook defines two concrete collaborators of the cache:
`FlipLR` (an `Augmentation` subclass supplying the transform hooks
`get` and `update_properties`) and `DummyFeature` (an upstream
producer).  Those are embedded directly from the notebook's code
cells.  The generic `Augmentation` cache machinery itself
(construction, `update()`, `resolve()`, the reload policy) is not part
of the notebook's code; it is modelled from the specification, with
the two aspects that the notebook's recorded outputs pin down
(construction performs no upstream call; the replay counter of the
k-th `update()` is `(k-1) % updates_per_reload`) taken from those
recorded outputs.
-/

/-- A property value stored in a property record: either a tuple of
integer coordinates (such as `position`) or a plain number. -/
inductive PropValue where
  | tuple (coords : List Int)
  | num (val : Int)
deriving DecidableEq, Repr

/-- One property record: an insertion-ordered association list of named
attributes, mirroring a Python `dict`. -/
abbrev PropRecord : Type := List (String × PropValue)

/-- An image together with its list of property records, as the
notebook's `Image` objects carry `image.properties`.  The pixel data is
a list of rows; a pixel may itself be a channel vector, so the element
type is a parameter. -/
structure DTImage (α : Type) where
  data : List (List α)
  properties : List PropRecord
deriving DecidableEq, Repr

/-- `image.shape[1]`: the length of the second axis, i.e. the length of
the first row. -/
def DTImage.width (img : DTImage α) : Nat :=
  match img.data with
  | [] => 0
  | r :: _ => r.length

/-- `np.fliplr`: reverse the second axis of the pixel array. -/
def fliplr (data : List (List α)) : List (List α) :=
  data.map List.reverse

/-- `FlipLR.get` from the notebook:
`if number_of_updates % 2: image = np.fliplr(image); return image`.
Only the pixel data is touched; the attached properties travel along. -/
def FlipLR.get (image : DTImage α) (number_of_updates : Nat) : DTImage α :=
  if number_of_updates % 2 ≠ 0 then
    { image with data := fliplr image.data }
  else
    image

/-- The rewrite `FlipLR.update_properties` performs on the value stored
under the key `"position"`:
`new_position = (position[0], image.shape[1] - position[1] - 1, *position[2:])`.
`none` models the `IndexError`/`TypeError` Python raises when the value
is not a tuple with at least two entries. -/
def flipPositionValue (w : Int) : PropValue → Option PropValue
  | .tuple (p0 :: p1 :: rest) => some (.tuple (p0 :: (w - p1 - 1) :: rest))
  | _ => none

/-- Apply an option-valued function to every element of a list, failing
as soon as the function fails (an explicit `mapM` over `Option`). -/
def optionMapList (f : β → Option γ) : List β → Option (List γ)
  | [] => some []
  | b :: bs =>
    match f b, optionMapList f bs with
    | some c, some cs => some (c :: cs)
    | _, _ => none

/-- Rewrite of a single named attribute: the entry under the key
`"position"` has its value flipped; every other entry is untouched. -/
def flipKV (w : Int) (kv : String × PropValue) : Option (String × PropValue) :=
  if kv.1 = "position" then
    (flipPositionValue w kv.2).map (fun v => ("position", v))
  else
    some kv

/-- One step of the loop body of `FlipLR.update_properties`: if the
record contains the key `"position"`, rewrite the value stored under
that key; other keys are untouched and the record's insertion order is
preserved. -/
def FlipLR.updateRecord (w : Int) (prop : PropRecord) : Option PropRecord :=
  if prop.any (fun kv => kv.1 = "position") then
    optionMapList (flipKV w) prop
  else
    some prop

/-- `FlipLR.update_properties` from the notebook: when
`number_of_updates % 2` is odd, every property record containing the
key `"position"` has that value's second coordinate replaced by
`image.shape[1] - position[1] - 1`; at even counts nothing happens.
The Python method mutates the records in place; the embedding returns
the image with the rewritten records. -/
def FlipLR.update_properties (image : DTImage α) (number_of_updates : Nat) :
    Option (DTImage α) :=
  if number_of_updates % 2 ≠ 0 then
    (optionMapList (FlipLR.updateRecord (image.width : Int)) image.properties).map
      (fun ps => { image with properties := ps })
  else
    some image

/-- The image produced by `DummyFeature.get` in the notebook: a 2×2×1
zero array with a one in the corner, `output[0, 0] = 1` (the channel
axis is represented by the pixel being a singleton list). -/
def dummyFeatureImage : DTImage (List Int) :=
  { data := [[[1], [0]], [[0], [0]]], properties := [] }

/-- Error taxonomy of the specification, plus `notLoaded`, which marks
the one situation the specification's taxonomy does not name: a
`resolve()` issued before the pool has ever been filled (the recorded
notebook run shows construction performs no upstream call, so a cache
that has never been updated holds no raw samples to resolve). -/
inductive CacheError where
  | configError
  | upstreamError
  | transformError
  | notLoaded
deriving DecidableEq, Repr

/-- Modelled from the spec: the configuration of an `AugmentationCache`
(§4.1 construction inputs) — the two positive-integer parameters and
the two transform hooks, `update_properties` being optional.  The hooks
may fail (`TransformError`); `get` is total in the spec's contract but
`update_properties` may raise, which the `Option` result models. -/
structure CacheConfig (α : Type) where
  load_size : Nat
  updates_per_reload : Nat
  get : DTImage α → Nat → DTImage α
  update_properties : Option (DTImage α → Nat → Option (DTImage α))

/-- Modelled from the spec: the cache's collaborators — the upstream
producer `produce() -> RawSample` (the call counter indexes successive
calls; `none` models `UpstreamError` on that call) and the injected
random-number generator of §9 (the draw made at the k-th reload). -/
structure Env (α : Type) where
  upstream : Nat → Option (DTImage α)
  rng : Nat → Nat

/-- Modelled from the spec: Pool and ReplayState of §3, together with
the bookkeeping that makes upstream traffic observable: `loaded`
records whether the initial fill has happened yet, `reloads` counts
completed reloads (indexing the injected RNG), and `produced` counts
upstream `produce()` calls made so far. -/
structure CacheState (α : Type) where
  pool : List (DTImage α)
  current_index : Nat
  updates_since_reload : Nat
  loaded : Bool
  reloads : Nat
  produced : Nat
deriving DecidableEq, Repr

/-- Modelled from the spec: draw `n` fresh raw samples from the
upstream producer, one call each, starting at call number `start`.
All-or-nothing: any failing call fails the whole draw (§7, a partial
reload never leaves a mixed-generation Pool). -/
def drawPool (u : Nat → Option (DTImage α)) (start : Nat) :
    Nat → Option (List (DTImage α))
  | 0 => some []
  | n + 1 =>
    match u start, drawPool u (start + 1) n with
    | some x, some rest => some (x :: rest)
    | _, _ => none

/-- Modelled from the spec: construction of the `AugmentationCache`.
Parameter validation is §4.1 (`ConfigError` when `load_size < 1` or
`updates_per_reload < 1`, before anything else happens).  The spec's
eager initial fill is replaced by a lazy one because the notebook's
recorded run decides this point: the construction cell
`FlipLR(slow_feature)` produces no upstream output, and the markdown
notes a single `DummyFeature.get` call for the first two resolves —
so a freshly constructed cache has made zero upstream calls and holds
an empty Pool; the initial fill happens at the first `update()`. -/
def AugmentationCache.init (cfg : CacheConfig α) : Except CacheError (CacheState α) :=
  if cfg.load_size < 1 ∨ cfg.updates_per_reload < 1 then
    .error .configError
  else
    .ok { pool := [], current_index := 0, updates_since_reload := 0,
          loaded := false, reloads := 0, produced := 0 }

/-- Modelled from the spec: a reload (§4.1 `update()`, and the
glossary) — draws `load_size` fresh raw samples (discarding the old
Pool wholesale), re-picks `current_index` from the injected RNG reduced
into `[0, load_size)`, and resets `updates_since_reload` to `0`.  A
failing upstream call surfaces as `UpstreamError` and commits nothing. -/
def AugmentationCache.reload (cfg : CacheConfig α) (env : Env α)
    (s : CacheState α) : Except CacheError (CacheState α) :=
  match drawPool env.upstream s.produced cfg.load_size with
  | none => .error .upstreamError
  | some pool =>
    .ok { pool := pool,
          current_index := env.rng s.reloads % cfg.load_size,
          updates_since_reload := 0,
          loaded := true,
          reloads := s.reloads + 1,
          produced := s.produced + cfg.load_size }

/-- Modelled from the spec: `update()` — the sole mutation point of the
cache.  The first `update()` performs the initial fill (the phase fixed
by the notebook's recorded outputs: the first `(update, resolve)` pair
makes the one upstream call and resolves at replay index `0`, the
second resolves at replay index `1`, and the third reloads); afterwards
it increments `updates_since_reload`, reloading when the incremented
counter reaches `updates_per_reload`. -/
def AugmentationCache.update (cfg : CacheConfig α) (env : Env α)
    (s : CacheState α) : Except CacheError (CacheState α) :=
  if s.loaded = false then
    AugmentationCache.reload cfg env s
  else if s.updates_since_reload + 1 ≥ cfg.updates_per_reload then
    AugmentationCache.reload cfg env s
  else
    .ok { s with updates_since_reload := s.updates_since_reload + 1 }

/-- Modelled from the spec: a failed `update()` raises and leaves the
Python object as it was, which this attempt wrapper makes explicit —
on an error the caller still holds the previous state. -/
def attemptUpdate (cfg : CacheConfig α) (env : Env α) (s : CacheState α) :
    CacheState α × Option CacheError :=
  match AugmentationCache.update cfg env s with
  | .ok s2 => (s2, none)
  | .error e => (s, some e)

/-- Modelled from the spec: the transform half of `resolve()` — apply
`get(image, updates_since_reload)` to a working copy of the selected
raw sample, then the optional `update_properties` at the same replay
index; a failing hook surfaces as `TransformError`. -/
def resolveSample (cfg : CacheConfig α) (raw : DTImage α) (n : Nat) :
    Except CacheError (DTImage α) :=
  let img := cfg.get raw n
  match cfg.update_properties with
  | none => .ok img
  | some up =>
    match up img n with
    | some img2 => .ok img2
    | none => .error .transformError

/-- Modelled from the spec: `resolve()` — reads the raw sample at
`current_index` from the Pool (no mutation of Pool or ReplayState: the
function takes the state and returns only the output) and applies the
transform hooks at the current replay index. -/
def AugmentationCache.resolve (cfg : CacheConfig α) (s : CacheState α) :
    Except CacheError (DTImage α) :=
  match s.pool[s.current_index]? with
  | none => .error .notLoaded
  | some raw => resolveSample cfg raw s.updates_since_reload

/-- Apply `update()` k times in sequence, stopping at the first error. -/
def applyUpdates (cfg : CacheConfig α) (env : Env α) (s : CacheState α) :
    Nat → Except CacheError (CacheState α)
  | 0 => .ok s
  | k + 1 =>
    match applyUpdates cfg env s k with
    | .ok s2 => AugmentationCache.update cfg env s2
    | .error e => .error e

/-- One caller-visible operation on the cache. -/
inductive Op where
  | update
  | resolve

/-- Run a sequence of operations against the cache, threading the state
and collecting one `resolve()` output per `resolve` operation.  A
failed `update()` leaves the state unchanged (the raised error is the
caller's to handle), matching `attemptUpdate`. -/
def runOps (cfg : CacheConfig α) (env : Env α) :
    List Op → CacheState α → CacheState α × List (Except CacheError (DTImage α))
  | [], s => (s, [])
  | Op.update :: rest, s => runOps cfg env rest (attemptUpdate cfg env s).1
  | Op.resolve :: rest, s =>
    let out := AugmentationCache.resolve cfg s
    let r := runOps cfg env rest s
    (r.1, out :: r.2)

/-- The configuration `FlipLR.__init__` passes to the `Augmentation`
constructor: `load_size=1`, `updates_per_reload=2`, with the notebook's
two transform hooks. -/
def flipLRConfig (α : Type) : CacheConfig α :=
  { load_size := 1, updates_per_reload := 2,
    get := FlipLR.get,
    update_properties := some FlipLR.update_properties }

/-- An environment whose upstream producer always succeeds, returning
`f k` on its k-th call, with `g` the injected random source. -/
def mkEnv (f : Nat → DTImage α) (g : Nat → Nat) : Env α :=
  { upstream := fun n => some (f n), rng := g }

/-- The state the model reaches after `k ≥ 1` successful `update()`
calls from a fresh cache over a total producer `f`: writing
`q = (k-1) / updates_per_reload`, the Pool holds the `q`-th generation
of `load_size` fresh draws, `current_index` is the `q`-th RNG draw
reduced into range, and the replay counter is `(k-1) %
updates_per_reload`. -/
def stateAt (cfg : CacheConfig α) (env : Env α) (f : Nat → DTImage α) (k : Nat) :
    CacheState α :=
  let q := (k - 1) / cfg.updates_per_reload
  { pool := (List.range cfg.load_size).map (fun i => f (q * cfg.load_size + i)),
    current_index := env.rng q % cfg.load_size,
    updates_since_reload := (k - 1) % cfg.updates_per_reload,
    loaded := true,
    reloads := q + 1,
    produced := (q + 1) * cfg.load_size }

theorem drawPool_total (f : Nat → DTImage α) :
    ∀ n start, drawPool (fun j => some (f j)) start n =
      some ((List.range n).map (fun i => f (start + i))) := by
  intro n
  induction n with
  | zero =>
    intro start
    simp [drawPool]
  | succ m ih =>
    intro start
    rw [drawPool, ih (start + 1)]
    show some (f start :: List.map (fun i => f (start + 1 + i)) (List.range m)) =
      some (List.map (fun i => f (start + i)) (List.range (m + 1)))
    rw [List.range_succ_eq_map, List.map_cons, List.map_map]
    have h1 : (fun i => f (start + 1 + i)) = ((fun i => f (start + i)) ∘ Nat.succ) := by
      funext i
      show f (start + 1 + i) = f (start + (i + 1))
      congr 1
      omega
    rw [h1]
    simp

theorem FlipLR.get_even (img : DTImage α) (n : Nat) (h : n % 2 = 0) :
    FlipLR.get img n = img := by
  simp [FlipLR.get, h]

theorem FlipLR.update_properties_even (img : DTImage α) (n : Nat) (h : n % 2 = 0) :
    FlipLR.update_properties img n = some img := by
  simp [FlipLR.update_properties, h]

theorem resolveSample_flipLR_even (raw : DTImage α) (n : Nat) (h : n % 2 = 0) :
    resolveSample (flipLRConfig α) raw n = .ok raw := by
  simp [resolveSample, flipLRConfig, FlipLR.get_even raw n h,
    FlipLR.update_properties_even raw n h]

theorem FlipLR.update_properties_data (img img2 : DTImage α) (n : Nat)
    (h : FlipLR.update_properties img n = some img2) : img2.data = img.data := by
  unfold FlipLR.update_properties at h
  by_cases hn : n % 2 ≠ 0
  · simp only [if_pos hn] at h
    obtain ⟨ps, _, rfl⟩ := Option.map_eq_some'.mp h
    rfl
  · simp only [if_neg hn] at h
    cases h
    rfl

theorem resolveSample_flipLR_data (raw r : DTImage α) (n : Nat)
    (h : resolveSample (flipLRConfig α) raw n = .ok r) :
    r.data = (FlipLR.get raw n).data := by
  unfold resolveSample flipLRConfig at h
  simp only at h
  cases hup : FlipLR.update_properties (FlipLR.get raw n) n with
  | none => rw [hup] at h; cases h
  | some img2 =>
    rw [hup] at h
    cases h
    exact FlipLR.update_properties_data _ _ _ hup

/-- The state of a freshly constructed cache with valid parameters:
empty Pool, zero counters, no upstream calls made yet. -/
def freshState (α : Type) : CacheState α :=
  { pool := [], current_index := 0, updates_since_reload := 0,
    loaded := false, reloads := 0, produced := 0 }

theorem init_valid (cfg : CacheConfig α) (hL : 1 ≤ cfg.load_size)
    (hU : 1 ≤ cfg.updates_per_reload) :
    AugmentationCache.init cfg = .ok (freshState α) := by
  have h : ¬(cfg.load_size < 1 ∨ cfg.updates_per_reload < 1) := by omega
  unfold AugmentationCache.init freshState
  rw [if_neg h]

theorem update_stateAt (cfg : CacheConfig α) (f : Nat → DTImage α) (g : Nat → Nat)
    (hU : 1 ≤ cfg.updates_per_reload) (k : Nat) :
    AugmentationCache.update cfg (mkEnv f g) (stateAt cfg (mkEnv f g) f (k + 1)) =
      .ok (stateAt cfg (mkEnv f g) f (k + 2)) := by
  have hU0 : 0 < cfg.updates_per_reload := hU
  have hc : k % cfg.updates_per_reload < cfg.updates_per_reload := Nat.mod_lt _ hU0
  have hk : k / cfg.updates_per_reload * cfg.updates_per_reload
      + k % cfg.updates_per_reload = k := Nat.div_add_mod' k cfg.updates_per_reload
  by_cases hA : k % cfg.updates_per_reload + 1 < cfg.updates_per_reload
  · have e1 : k + 1 = (k % cfg.updates_per_reload + 1)
        + k / cfg.updates_per_reload * cfg.updates_per_reload := by omega
    have h1 : (k + 1) % cfg.updates_per_reload = k % cfg.updates_per_reload + 1 := by
      rw [e1, Nat.add_mul_mod_self_right, Nat.mod_eq_of_lt hA]
    have h2 : (k + 1) / cfg.updates_per_reload = k / cfg.updates_per_reload := by
      rw [e1, Nat.add_mul_div_right _ _ hU0, Nat.div_eq_of_lt hA, Nat.zero_add]
    have hA2 : ¬(k % cfg.updates_per_reload + 1 ≥ cfg.updates_per_reload) := by omega
    simp [stateAt, AugmentationCache.update, h1, h2, hA2]
  · have hceq : k % cfg.updates_per_reload + 1 = cfg.updates_per_reload := by omega
    have e1 : k + 1 = (k / cfg.updates_per_reload + 1) * cfg.updates_per_reload := by
      have e2 : (k / cfg.updates_per_reload + 1) * cfg.updates_per_reload
          = k / cfg.updates_per_reload * cfg.updates_per_reload
            + cfg.updates_per_reload := by ring
      omega
    have h1 : (k + 1) % cfg.updates_per_reload = 0 := by
      rw [e1]
      exact Nat.mul_mod_left _ _
    have h2 : (k + 1) / cfg.updates_per_reload = k / cfg.updates_per_reload + 1 := by
      rw [e1, Nat.mul_div_cancel _ hU0]
    have hA2 : k % cfg.updates_per_reload + 1 ≥ cfg.updates_per_reload := by omega
    simp [stateAt, AugmentationCache.update, AugmentationCache.reload, hA2, h1, h2,
      mkEnv, drawPool_total]
    ring

theorem applyUpdates_stateAt (cfg : CacheConfig α) (f : Nat → DTImage α)
    (g : Nat → Nat) (hL : 1 ≤ cfg.load_size) (hU : 1 ≤ cfg.updates_per_reload)
    (s0 : CacheState α) (h0 : AugmentationCache.init cfg = .ok s0) :
    ∀ k, applyUpdates cfg (mkEnv f g) s0 (k + 1) =
      .ok (stateAt cfg (mkEnv f g) f (k + 1)) := by
  have hs0 : s0 = freshState α := by
    rw [init_valid cfg hL hU] at h0
    cases h0
    rfl
  intro k
  induction k with
  | zero =>
    rw [applyUpdates, applyUpdates, hs0]
    simp [AugmentationCache.update, AugmentationCache.reload, stateAt,
      freshState, mkEnv, drawPool_total]
  | succ m ih =>
    rw [applyUpdates, ih]
    show AugmentationCache.update cfg (mkEnv f g) (stateAt cfg (mkEnv f g) f (m + 1)) =
      .ok (stateAt cfg (mkEnv f g) f (m + 2))
    exact update_stateAt cfg f g hU m

theorem runOps_resolves (cfg : CacheConfig α) (env : Env α) (s : CacheState α) :
    ∀ n, runOps cfg env (List.replicate n Op.resolve) s =
      (s, List.replicate n (AugmentationCache.resolve cfg s)) := by
  intro n
  induction n with
  | zero => simp [runOps]
  | succ m ih => simp [List.replicate_succ, runOps, ih]

theorem update_freshState (cfg : CacheConfig α) (f : Nat → DTImage α)
    (g : Nat → Nat) :
    AugmentationCache.update cfg (mkEnv f g) (freshState α) =
      .ok (stateAt cfg (mkEnv f g) f 1) := by
  simp [AugmentationCache.update, AugmentationCache.reload, freshState, stateAt,
    mkEnv, drawPool_total]

/-- Modelled from the spec: the batched variant's collaborators — an
ordered sequence of N paired upstream producers plus the single
injected random source shared by all of them (§4.1 batched variant). -/
structure BatchEnv (α : Type) where
  upstreams : List (Nat → Option (DTImage α))
  rng : Nat → Nat

/-- Modelled from the spec: the batched variant's state — N Pools held
in lock-step, with ONE shared `current_index` and ONE shared replay
counter for all of them (§4.1: "current_index is shared across all N
pools"). -/
structure BatchState (α : Type) where
  pools : List (List (DTImage α))
  current_index : Nat
  updates_since_reload : Nat
  loaded : Bool
  reloads : Nat
  produced : Nat

/-- Modelled from the spec: one batched reload draw — `load_size`
samples from every paired producer, all-or-nothing across the whole
batch (§7: a partial failure must not leave a mixed-generation Pool). -/
def batchDraw (L start : Nat) :
    List (Nat → Option (DTImage α)) → Option (List (List (DTImage α)))
  | [] => some []
  | u :: us =>
    match drawPool u start L, batchDraw L start us with
    | some p, some ps => some (p :: ps)
    | _, _ => none

/-- Modelled from the spec: construction of the batched variant —
identical parameter validation, lazy initial fill (as for the single
variant, fixed by the recorded notebook run: constructing
`FlipLR([slow_feature_1, slow_feature_2])` produces no upstream
output). -/
def batchInit (cfg : CacheConfig α) : Except CacheError (BatchState α) :=
  if cfg.load_size < 1 ∨ cfg.updates_per_reload < 1 then
    .error .configError
  else
    .ok { pools := [], current_index := 0, updates_since_reload := 0,
          loaded := false, reloads := 0, produced := 0 }

/-- Modelled from the spec: a batched reload — one draw of `load_size`
samples from each producer, one shared RNG pick for `current_index`,
counter reset; nothing is committed unless every producer succeeded. -/
def batchReload (cfg : CacheConfig α) (env : BatchEnv α) (bs : BatchState α) :
    Except CacheError (BatchState α) :=
  match batchDraw cfg.load_size bs.produced env.upstreams with
  | none => .error .upstreamError
  | some pools =>
    .ok { pools := pools,
          current_index := env.rng bs.reloads % cfg.load_size,
          updates_since_reload := 0,
          loaded := true,
          reloads := bs.reloads + 1,
          produced := bs.produced + cfg.load_size }

/-- Modelled from the spec: `update()` of the batched variant, with the
same schedule as the single-producer cache. -/
def batchUpdate (cfg : CacheConfig α) (env : BatchEnv α) (bs : BatchState α) :
    Except CacheError (BatchState α) :=
  if bs.loaded = false then
    batchReload cfg env bs
  else if bs.updates_since_reload + 1 ≥ cfg.updates_per_reload then
    batchReload cfg env bs
  else
    .ok { bs with updates_since_reload := bs.updates_since_reload + 1 }

/-- Modelled from the spec: a failed batched `update()` raises and the
caller still holds the previous state. -/
def attemptBatchUpdate (cfg : CacheConfig α) (env : BatchEnv α)
    (bs : BatchState α) : BatchState α × Option CacheError :=
  match batchUpdate cfg env bs with
  | .ok bs2 => (bs2, none)
  | .error e => (bs, some e)

/-- Resolve one pool of the batch at the given (shared) slot index and
replay counter. -/
def resolveFromPool (cfg : CacheConfig α) (idx n : Nat)
    (pool : List (DTImage α)) : Except CacheError (DTImage α) :=
  match pool[idx]? with
  | none => .error .notLoaded
  | some raw => resolveSample cfg raw n

def batchResolveAux (cfg : CacheConfig α) (idx n : Nat) :
    List (List (DTImage α)) → Except CacheError (List (DTImage α))
  | [] => .ok []
  | pool :: rest =>
    match resolveFromPool cfg idx n pool, batchResolveAux cfg idx n rest with
    | .ok out, .ok outs => .ok (out :: outs)
    | .error e, _ => .error e
    | _, .error e => .error e

/-- Modelled from the spec: `resolve()` of the batched variant —
applies the transform hooks to each pool's selected sample, all pools
sharing the one `current_index` and the one replay counter, returning
the ordered sequence of N transformed outputs. -/
def batchResolve (cfg : CacheConfig α) (bs : BatchState α) :
    Except CacheError (List (DTImage α)) :=
  batchResolveAux cfg bs.current_index bs.updates_since_reload bs.pools

theorem batchResolveAux_entries (cfg : CacheConfig α) (idx n : Nat) :
    ∀ (pools : List (List (DTImage α))) (outs : List (DTImage α)),
      batchResolveAux cfg idx n pools = .ok outs →
      ∀ (i : Nat) (pool : List (DTImage α)), pools[i]? = some pool →
        ∃ out, resolveFromPool cfg idx n pool = .ok out ∧ outs[i]? = some out := by
  intro pools
  induction pools with
  | nil =>
    intro outs _ i pool hp
    simp at hp
  | cons p rest ih =>
    intro outs hres i pool hp
    rw [batchResolveAux] at hres
    cases hh : resolveFromPool cfg idx n p with
    | error e =>
      rw [hh] at hres
      cases ht : batchResolveAux cfg idx n rest with
      | error e2 => rw [ht] at hres; cases hres
      | ok outs2 => rw [ht] at hres; cases hres
    | ok out =>
      rw [hh] at hres
      cases ht : batchResolveAux cfg idx n rest with
      | error e => rw [ht] at hres; cases hres
      | ok outs2 =>
        rw [ht] at hres
        cases hres
        cases i with
        | zero =>
          simp at hp
          subst hp
          simp [hh]
        | succ j =>
          simp at hp
          have := ih outs2 ht j pool hp
          simpa using this

theorem batchDraw_fails (L start : Nat) :
    ∀ (us : List (Nat → Option (DTImage α))) (j : Nat)
      (u : Nat → Option (DTImage α)),
      us[j]? = some u → drawPool u start L = none →
      batchDraw L start us = none := by
  intro us
  induction us with
  | nil =>
    intro j u hj _
    simp at hj
  | cons v rest ih =>
    intro j u hj hfail
    cases j with
    | zero =>
      simp at hj
      subst hj
      rw [batchDraw, hfail]
    | succ m =>
      simp at hj
      rw [batchDraw, ih m u hj hfail]
      cases drawPool v start L <;> rfl

theorem flipPositionValue_invol (w : Int) (v v2 : PropValue)
    (h : flipPositionValue w v = some v2) : flipPositionValue w v2 = some v := by
  cases v with
  | num q => simp [flipPositionValue] at h
  | tuple coords =>
    match coords with
    | [] => simp [flipPositionValue] at h
    | [p0] => simp [flipPositionValue] at h
    | p0 :: p1 :: rest =>
      simp only [flipPositionValue] at h
      cases h
      simp only [flipPositionValue]
      have h2 : w - (w - p1 - 1) - 1 = p1 := by omega
      rw [h2]

theorem flipKV_invol (w : Int) (kv kv2 : String × PropValue)
    (h : flipKV w kv = some kv2) : flipKV w kv2 = some kv ∧ kv2.1 = kv.1 := by
  obtain ⟨k, v⟩ := kv
  by_cases hk : k = "position"
  · subst hk
    rw [flipKV, if_pos rfl] at h
    obtain ⟨v2, hv2, hkv2⟩ := Option.map_eq_some'.mp h
    subst hkv2
    refine ⟨?_, rfl⟩
    rw [flipKV, if_pos rfl, flipPositionValue_invol w v v2 hv2]
    rfl
  · rw [flipKV, if_neg hk] at h
    cases h
    exact ⟨by rw [flipKV, if_neg hk], rfl⟩

theorem optionMapList_flipKV_invol (w : Int) :
    ∀ r r2 : PropRecord, optionMapList (flipKV w) r = some r2 →
      optionMapList (flipKV w) r2 = some r ∧
      r2.any (fun kv => kv.1 = "position") = r.any (fun kv => kv.1 = "position") := by
  intro r
  induction r with
  | nil =>
    intro r2 h
    cases h
    exact ⟨rfl, rfl⟩
  | cons kv rest ih =>
    intro r2 h
    rw [optionMapList] at h
    cases hkv : flipKV w kv with
    | none =>
      rw [hkv] at h
      cases optionMapList (flipKV w) rest <;> cases h
    | some kv2 =>
      rw [hkv] at h
      cases htl : optionMapList (flipKV w) rest with
      | none => rw [htl] at h; cases h
      | some rest2 =>
        rw [htl] at h
        cases h
        obtain ⟨hkv2, hkey⟩ := flipKV_invol w kv kv2 hkv
        obtain ⟨htl2, hkeys⟩ := ih rest2 htl
        constructor
        · rw [optionMapList, hkv2, htl2]
        · simp [List.any_cons, hkey, hkeys]

theorem updateRecord_invol (w : Int) (r r2 : PropRecord)
    (h : FlipLR.updateRecord w r = some r2) : FlipLR.updateRecord w r2 = some r := by
  by_cases hg : r.any (fun kv => kv.1 = "position")
  · rw [FlipLR.updateRecord, if_pos hg] at h
    obtain ⟨h2, hkeys⟩ := optionMapList_flipKV_invol w r r2 h
    rw [FlipLR.updateRecord, if_pos (by rw [hkeys]; exact hg)]
    exact h2
  · rw [FlipLR.updateRecord, if_neg hg] at h
    cases h
    rw [FlipLR.updateRecord, if_neg hg]

theorem optionMapList_invol (f : β → Option β)
    (hf : ∀ b b2, f b = some b2 → f b2 = some b) :
    ∀ l l2 : List β, optionMapList f l = some l2 → optionMapList f l2 = some l := by
  intro l
  induction l with
  | nil =>
    intro l2 h
    cases h
    rfl
  | cons b rest ih =>
    intro l2 h
    rw [optionMapList] at h
    cases hb : f b with
    | none =>
      rw [hb] at h
      cases optionMapList f rest <;> cases h
    | some b2 =>
      rw [hb] at h
      cases htl : optionMapList f rest with
      | none => rw [htl] at h; cases h
      | some rest2 =>
        rw [htl] at h
        cases h
        rw [optionMapList, hf b b2 hb, ih rest2 htl]

theorem update_properties_invol (img img2 : DTImage α) (n : Nat)
    (h : FlipLR.update_properties img n = some img2) :
    FlipLR.update_properties img2 n = some img := by
  by_cases hn : n % 2 ≠ 0
  · rw [FlipLR.update_properties, if_pos hn] at h
    obtain ⟨ps, hps, himg2⟩ := Option.map_eq_some'.mp h
    subst himg2
    rw [FlipLR.update_properties, if_pos hn]
    have hsame : (DTImage.mk img.data ps : DTImage α).width = img.width := rfl
    rw [hsame]
    have h2 := optionMapList_invol (FlipLR.updateRecord (img.width : Int))
      (updateRecord_invol (img.width : Int)) img.properties ps hps
    rw [h2]
    rfl
  · rw [FlipLR.update_properties, if_neg hn] at h
    cases h
    rw [FlipLR.update_properties, if_neg hn]

theorem get_invol (img : DTImage α) (n : Nat) :
    FlipLR.get (FlipLR.get img n) n = img := by
  by_cases hn : n % 2 ≠ 0
  · cases img with
    | mk d p =>
      simp [FlipLR.get, hn, fliplr, List.map_map, Function.comp]
  · simp [FlipLR.get, hn]

/-- A width-4 one-row image carrying the property record
`{"position": (0, 1)}` from the property-consistency test of the
specification. -/
def posImage4 : DTImage Int :=
  { data := [[0, 0, 0, 0]],
    properties := [[("position", PropValue.tuple [0, 1])]] }

/-- C6: for an image of width 4 carrying a property record
`{"position": (p0, 1, ...)}`, the left-right-flip `update_properties`
invoked at an odd replay index rewrites the second coordinate to
`width - 1 - 1 = 2`, preserving the first coordinate and any trailing
coordinates. -/
theorem flipLR_position_width4 (img : DTImage α) (p0 : Int)
    (rest : List Int) (n : Nat) (hw : img.width = 4) (hodd : n % 2 = 1)
    (hprops : img.properties = [[("position", PropValue.tuple (p0 :: 1 :: rest))]]) :
    FlipLR.update_properties img n =
      some { img with
             properties := [[("position", PropValue.tuple (p0 :: 2 :: rest))]] } := by
  have hn : n % 2 ≠ 0 := by omega
  rw [FlipLR.update_properties, if_pos hn, hprops, hw]
  simp [optionMapList, FlipLR.updateRecord, flipKV, flipPositionValue]

/-- Witness for C6: the concrete width-4 image with
`{"position": (0, 1)}` is rewritten to `{"position": (0, 2)}` at replay
index 1. -/
theorem flipLR_position_width4_witness :
    posImage4.width = 4 ∧
    FlipLR.update_properties posImage4 1 =
      some { posImage4 with
             properties := [[("position", PropValue.tuple [0, 2])]] } :=
  ⟨rfl, flipLR_position_width4 posImage4 0 [] 1 rfl rfl rfl⟩

/-- C10: the FlipLR transform is an involution at odd replay indices —
applying `get` twice at an odd count returns the original image, and
applying `update_properties` twice at an odd count restores the
original properties (`width - 1 - (width - 1 - p) = p`); at even counts
both hooks are identities. -/
theorem flipLR_involution (img : DTImage α) (m : Nat) :
    FlipLR.get (FlipLR.get img (2 * m + 1)) (2 * m + 1) = img ∧
    (∀ img2, FlipLR.update_properties img (2 * m + 1) = some img2 →
      FlipLR.update_properties img2 (2 * m + 1) = some img) ∧
    FlipLR.get img (2 * m) = img ∧
    FlipLR.update_properties img (2 * m) = some img := by
  refine ⟨get_invol img (2 * m + 1), ?_, ?_, ?_⟩
  · intro img2 h
    exact update_properties_invol img img2 (2 * m + 1) h
  · exact FlipLR.get_even img (2 * m) (by omega)
  · exact FlipLR.update_properties_even img (2 * m) (by omega)

/-- A small 2×2 image with a position property, used to witness the
involution claim on concrete data. -/
def wImg : DTImage Int :=
  { data := [[1, 2], [3, 4]],
    properties := [[("position", PropValue.tuple [0, 1])]] }

/-- The image `wImg` after one odd-index `update_properties`: the
position's second coordinate becomes `2 - 1 - 1 = 0`. -/
def wImgF : DTImage Int :=
  { data := [[1, 2], [3, 4]],
    properties := [[("position", PropValue.tuple [0, 0])]] }

/-- Witness for C10: the involution evaluated on `wImg` at replay
indices 1 and 0. -/
theorem flipLR_involution_witness :
    FlipLR.get (FlipLR.get wImg 1) 1 = wImg ∧
    FlipLR.update_properties wImg 1 = some wImgF ∧
    FlipLR.update_properties wImgF 1 = some wImg ∧
    FlipLR.get wImg 0 = wImg ∧
    FlipLR.update_properties wImg 0 = some wImg :=
  ⟨(flipLR_involution wImg 0).1,
   by decide,
   (flipLR_involution wImg 0).2.1 wImgF (by decide),
   (flipLR_involution wImg 0).2.2.1,
   (flipLR_involution wImg 0).2.2.2⟩

/-- C1: over any total upstream producer, after `k + 1` successful
`update()` calls from a fresh cache the replay counter equals
`k % updates_per_reload` — it cycles strictly through
`0 .. updates_per_reload - 1` repeating and always stays in range —
while the reload count equals `k / updates_per_reload + 1`: a reload
(wholesale replacement of the Pool with `load_size` fresh upstream
samples, a new RNG-drawn `current_index` in range, counter reset to 0)
happens exactly once every `updates_per_reload` calls and at no other
time. -/
theorem updates_counter_cycle_and_reload_cadence (cfg : CacheConfig α)
    (f : Nat → DTImage α) (g : Nat → Nat) (s0 : CacheState α)
    (hL : 1 ≤ cfg.load_size) (hU : 1 ≤ cfg.updates_per_reload)
    (h0 : AugmentationCache.init cfg = .ok s0) (k : Nat) :
    ∃ s, applyUpdates cfg (mkEnv f g) s0 (k + 1) = .ok s ∧
      s.updates_since_reload = k % cfg.updates_per_reload ∧
      s.updates_since_reload < cfg.updates_per_reload ∧
      s.reloads = k / cfg.updates_per_reload + 1 ∧
      s.pool = (List.range cfg.load_size).map
        (fun i => f (k / cfg.updates_per_reload * cfg.load_size + i)) ∧
      s.current_index = g (k / cfg.updates_per_reload) % cfg.load_size ∧
      s.current_index < cfg.load_size := by
  refine ⟨stateAt cfg (mkEnv f g) f (k + 1),
    applyUpdates_stateAt cfg f g hL hU s0 h0 k, rfl, ?_, rfl, rfl, rfl, ?_⟩
  · exact Nat.mod_lt _ hU
  · exact Nat.mod_lt _ hL

/-- Witness for C1 at `load_size = 1`, `updates_per_reload = 2`, after
four `update()` calls. -/
theorem updates_counter_cycle_and_reload_cadence_witness :
    ∃ s, applyUpdates (flipLRConfig Int) (mkEnv (fun _ => wImg) (fun _ => 0))
        (freshState Int) (3 + 1) = .ok s ∧
      s.updates_since_reload = 3 % (flipLRConfig Int).updates_per_reload ∧
      s.updates_since_reload < (flipLRConfig Int).updates_per_reload ∧
      s.reloads = 3 / (flipLRConfig Int).updates_per_reload + 1 ∧
      s.pool = (List.range (flipLRConfig Int).load_size).map
        (fun i => (fun _ : Nat => wImg)
          (3 / (flipLRConfig Int).updates_per_reload *
            (flipLRConfig Int).load_size + i)) ∧
      s.current_index = (fun _ : Nat => 0)
        (3 / (flipLRConfig Int).updates_per_reload) %
        (flipLRConfig Int).load_size ∧
      s.current_index < (flipLRConfig Int).load_size :=
  updates_counter_cycle_and_reload_cadence (flipLRConfig Int)
    (fun _ => wImg) (fun _ => 0) (freshState Int)
    (by norm_num [flipLRConfig]) (by norm_num [flipLRConfig])
    (init_valid (flipLRConfig Int) (by norm_num [flipLRConfig])
      (by norm_num [flipLRConfig])) 3

theorem resolve_stateAt_one (f : Nat → DTImage α) (g : Nat → Nat) :
    AugmentationCache.resolve (flipLRConfig α)
      (stateAt (flipLRConfig α) (mkEnv f g) f 1) = .ok (f 0) := by
  simp [AugmentationCache.resolve, stateAt, flipLRConfig, mkEnv, Nat.mod_one]
  exact resolveSample_flipLR_even (f 0) 0 rfl

theorem resolve_stateAt_two (f : Nat → DTImage α) (g : Nat → Nat) :
    AugmentationCache.resolve (flipLRConfig α)
      (stateAt (flipLRConfig α) (mkEnv f g) f 2) =
      resolveSample (flipLRConfig α) (f 0) 1 := by
  simp [AugmentationCache.resolve, stateAt, flipLRConfig, mkEnv, Nat.mod_one]

theorem resolve_stateAt_three (f : Nat → DTImage α) (g : Nat → Nat) :
    AugmentationCache.resolve (flipLRConfig α)
      (stateAt (flipLRConfig α) (mkEnv f g) f 3) = .ok (f 1) := by
  simp [AugmentationCache.resolve, stateAt, flipLRConfig, mkEnv, Nat.mod_one]
  exact resolveSample_flipLR_even (f 1) 0 rfl

/-- C2: with `FlipLR`'s configuration (`load_size = 1`,
`updates_per_reload = 2`), three successive `(update, resolve)` pairs
from a fresh cache return: first the unmodified raw sample `f 0`,
second the transform of `f 0` at replay index 1 (whose pixel data is
the left-right flip of `f 0`), and third — after the automatic
reload — the unmodified new raw sample `f 1`. -/
theorem flipLR_three_rounds (f : Nat → DTImage α) (g : Nat → Nat) :
    (runOps (flipLRConfig α) (mkEnv f g)
        [Op.update, Op.resolve, Op.update, Op.resolve, Op.update, Op.resolve]
        (freshState α)).2 =
      [.ok (f 0), resolveSample (flipLRConfig α) (f 0) 1, .ok (f 1)] ∧
    (∀ r, resolveSample (flipLRConfig α) (f 0) 1 = .ok r →
      r.data = fliplr (f 0).data) := by
  have h1 := update_freshState (flipLRConfig α) f g
  have h2 : AugmentationCache.update (flipLRConfig α) (mkEnv f g)
      (stateAt (flipLRConfig α) (mkEnv f g) f 1) =
      .ok (stateAt (flipLRConfig α) (mkEnv f g) f 2) :=
    update_stateAt (flipLRConfig α) f g (by norm_num [flipLRConfig]) 0
  have h3 : AugmentationCache.update (flipLRConfig α) (mkEnv f g)
      (stateAt (flipLRConfig α) (mkEnv f g) f 2) =
      .ok (stateAt (flipLRConfig α) (mkEnv f g) f 3) :=
    update_stateAt (flipLRConfig α) f g (by norm_num [flipLRConfig]) 1
  constructor
  · simp [runOps, attemptUpdate, h1, h2, h3, resolve_stateAt_one,
      resolve_stateAt_two, resolve_stateAt_three]
  · intro r hr
    rw [resolveSample_flipLR_data (f 0) r 1 hr]
    simp [FlipLR.get]

/-- The concrete producer used to witness C2: the n-th raw sample is a
1×2 image whose first pixel records n. -/
def wProducer : Nat → DTImage Int :=
  fun n => { data := [[Int.ofNat n, 7]], properties := [] }

/-- Witness for C2: the three-round trace evaluated on the concrete
producer `wProducer`, with the second output computed explicitly — the
flip of `wProducer 0`. -/
theorem flipLR_three_rounds_witness :
    (runOps (flipLRConfig Int) (mkEnv wProducer (fun _ => 0))
        [Op.update, Op.resolve, Op.update, Op.resolve, Op.update, Op.resolve]
        (freshState Int)).2 =
      [.ok (wProducer 0), resolveSample (flipLRConfig Int) (wProducer 0) 1,
        .ok (wProducer 1)] ∧
    resolveSample (flipLRConfig Int) (wProducer 0) 1 =
      .ok { data := [[7, 0]], properties := [] } ∧
    (DTImage.mk [[7, 0]] [] : DTImage Int).data = fliplr (wProducer 0).data :=
  ⟨(flipLR_three_rounds wProducer (fun _ => 0)).1,
   rfl,
   (flipLR_three_rounds wProducer (fun _ => 0)).2 _ rfl⟩

/-- Counterexample to C3's final sentence: immediately after
construction and before any `update()`, `resolve()` does not return an
output derived from replay index 0 — the Pool is still empty
(construction performs no upstream draw, as the notebook's recorded run
shows) and `resolve()` fails. -/
theorem resolve_before_update_cex :
    AugmentationCache.init (flipLRConfig Int) = .ok (freshState Int) ∧
    (freshState Int).pool = [] ∧
    AugmentationCache.resolve (flipLRConfig Int) (freshState Int) =
      .error .notLoaded :=
  ⟨init_valid _ (by norm_num [flipLRConfig]) (by norm_num [flipLRConfig]),
   rfl, rfl⟩

/-- C3 (amended): `resolve()` is a pure function of the current cache
state — any number of `resolve()` calls with no intervening `update()`
return the same output and leave the whole state (Pool,
`current_index`, `updates_since_reload`) unchanged; and immediately
after the FIRST `update()` (which performs the initial fill), the
output of `resolve()` is derived from replay index 0. -/
theorem resolve_pure_and_replay_zero_after_first_update
    (cfg : CacheConfig α) (env : Env α) (s : CacheState α) (n : Nat)
    (f : Nat → DTImage α) (g : Nat → Nat) (hL : 1 ≤ cfg.load_size) :
    runOps cfg env (List.replicate n Op.resolve) s =
      (s, List.replicate n (AugmentationCache.resolve cfg s)) ∧
    ∃ s1 raw, AugmentationCache.update cfg (mkEnv f g) (freshState α) = .ok s1 ∧
      s1.updates_since_reload = 0 ∧
      s1.pool[s1.current_index]? = some raw ∧
      AugmentationCache.resolve cfg s1 = resolveSample cfg raw 0 := by
  refine ⟨runOps_resolves cfg env s n, ?_⟩
  have h1 := update_freshState cfg f g
  have hcnt : (stateAt cfg (mkEnv f g) f 1).updates_since_reload = 0 := by
    simp [stateAt]
  have hlen : (stateAt cfg (mkEnv f g) f 1).pool.length = cfg.load_size := by
    simp [stateAt]
  have hidx : (stateAt cfg (mkEnv f g) f 1).current_index <
      (stateAt cfg (mkEnv f g) f 1).pool.length := by
    rw [hlen]
    exact Nat.mod_lt _ hL
  obtain ⟨raw, hsome⟩ : ∃ raw, (stateAt cfg (mkEnv f g) f 1).pool[
      (stateAt cfg (mkEnv f g) f 1).current_index]? = some raw := by
    rw [List.getElem?_eq_getElem hidx]
    exact ⟨_, rfl⟩
  refine ⟨stateAt cfg (mkEnv f g) f 1, raw, h1, hcnt, hsome, ?_⟩
  simp [AugmentationCache.resolve, hsome, hcnt]

/-- Witness for C3 (amended): the purity equation and the replay-0
first resolve, instantiated on the concrete FlipLR configuration and
producer. -/
theorem resolve_pure_witness :
    runOps (flipLRConfig Int) (mkEnv wProducer (fun _ => 0))
      (List.replicate 2 Op.resolve) (freshState Int) =
      (freshState Int, List.replicate 2 (AugmentationCache.resolve
        (flipLRConfig Int) (freshState Int))) ∧
    ∃ s1 raw, AugmentationCache.update (flipLRConfig Int)
        (mkEnv wProducer (fun _ => 0)) (freshState Int) = .ok s1 ∧
      s1.updates_since_reload = 0 ∧
      s1.pool[s1.current_index]? = some raw ∧
      AugmentationCache.resolve (flipLRConfig Int) s1 =
        resolveSample (flipLRConfig Int) raw 0 :=
  resolve_pure_and_replay_zero_after_first_update (flipLRConfig Int)
    (mkEnv wProducer (fun _ => 0)) (freshState Int) 2 wProducer (fun _ => 0)
    (by norm_num [flipLRConfig])

/-- C9: `resolve()` never mutates the cached raw data — running any
number of `resolve` operations leaves the state (hence every
`RawSample` stored in the Pool) exactly as it was, and every output is
the same single value, so repeated `resolve()` calls cannot accumulate
transformation side effects. -/
theorem resolve_preserves_pool (cfg : CacheConfig α) (env : Env α)
    (s : CacheState α) (n : Nat) :
    (runOps cfg env (List.replicate n Op.resolve) s).1 = s ∧
    (runOps cfg env (List.replicate n Op.resolve) s).2 =
      List.replicate n (AugmentationCache.resolve cfg s) ∧
    ∀ i : Nat, (runOps cfg env (List.replicate n Op.resolve) s).1.pool[i]? =
      s.pool[i]? := by
  have h := runOps_resolves cfg env s n
  exact ⟨by rw [h], by rw [h], fun i => by rw [h]⟩

/-- Counterexample to C7: with perfectly valid parameters
(`load_size = 1`, `updates_per_reload = 2`) construction succeeds but
draws nothing — the Pool is empty rather than holding `load_size`
samples and the upstream call count is zero, refuting "construction
immediately draws exactly load_size samples".  (This matches the
notebook's recorded run, where the construction cell prints no
upstream output; the claim follows the spec's and the notebook
markdown's eager-fill description, which the recorded behavior
contradicts.) -/
theorem construction_eager_draw_cex :
    AugmentationCache.init (flipLRConfig Int) = .ok (freshState Int) ∧
    (freshState Int).produced = 0 ∧
    ¬((freshState Int).pool.length = (flipLRConfig Int).load_size) :=
  ⟨init_valid _ (by norm_num [flipLRConfig]) (by norm_num [flipLRConfig]),
   rfl, by decide⟩

/-- C7 (amended): construction with `load_size < 1` or
`updates_per_reload < 1` fails with `ConfigError` (construction invokes
no producer at all — `init` does not even receive one); on valid
parameters construction also performs zero upstream calls, holding an
empty Pool, and the deferred initial fill happens at the first
`update()`, which draws exactly `load_size` samples (one producer call
each), picks `current_index` from the injected RNG reduced into
`[0, load_size)`, and has `updates_since_reload = 0`. -/
theorem construction_validation_and_lazy_fill (cfg cfg2 : CacheConfig α)
    (f : Nat → DTImage α) (g : Nat → Nat)
    (hbad : cfg.load_size < 1 ∨ cfg.updates_per_reload < 1)
    (hL : 1 ≤ cfg2.load_size) (hU : 1 ≤ cfg2.updates_per_reload) :
    AugmentationCache.init cfg = .error .configError ∧
    AugmentationCache.init cfg2 = .ok (freshState α) ∧
    (freshState α).produced = 0 ∧
    (freshState α).pool = [] ∧
    ∃ s1, AugmentationCache.update cfg2 (mkEnv f g) (freshState α) = .ok s1 ∧
      s1.produced = cfg2.load_size ∧
      s1.pool = (List.range cfg2.load_size).map (fun i => f i) ∧
      s1.current_index = g 0 % cfg2.load_size ∧
      s1.current_index < cfg2.load_size ∧
      s1.updates_since_reload = 0 := by
  refine ⟨by rw [AugmentationCache.init, if_pos hbad],
    init_valid cfg2 hL hU, rfl, rfl,
    stateAt cfg2 (mkEnv f g) f 1, update_freshState cfg2 f g, ?_, ?_, ?_, ?_, ?_⟩
  · simp [stateAt]
  · simp [stateAt]
  · simp [stateAt, mkEnv]
  · exact Nat.mod_lt _ hL
  · simp [stateAt]

/-- A deliberately invalid configuration: both parameters are zero. -/
def badConfig : CacheConfig Int :=
  { load_size := 0, updates_per_reload := 0,
    get := FlipLR.get, update_properties := none }

/-- Witness for C7 (amended), at the invalid all-zero configuration and
the valid FlipLR configuration. -/
theorem construction_validation_witness :
    AugmentationCache.init badConfig = .error .configError ∧
    AugmentationCache.init (flipLRConfig Int) = .ok (freshState Int) ∧
    (freshState Int).produced = 0 ∧
    (freshState Int).pool = [] ∧
    ∃ s1, AugmentationCache.update (flipLRConfig Int)
        (mkEnv wProducer (fun _ => 0)) (freshState Int) = .ok s1 ∧
      s1.produced = (flipLRConfig Int).load_size ∧
      s1.pool = (List.range (flipLRConfig Int).load_size).map
        (fun i => wProducer i) ∧
      s1.current_index = (fun _ : Nat => 0) 0 % (flipLRConfig Int).load_size ∧
      s1.current_index < (flipLRConfig Int).load_size ∧
      s1.updates_since_reload = 0 :=
  construction_validation_and_lazy_fill badConfig (flipLRConfig Int)
    wProducer (fun _ => 0) (by norm_num [badConfig])
    (by norm_num [flipLRConfig]) (by norm_num [flipLRConfig])

/-- C8: `current_index` is re-chosen only at reload boundaries — an
`update()` that does not trigger a reload only increments the counter,
leaving `current_index` and the Pool untouched (so between two
consecutive reloads every `resolve()` reads the same pool slot), while
an `update()` that does trigger a reload sets `current_index` to the
next injected RNG draw reduced into `[0, load_size)`. -/
theorem index_changes_only_at_reload (cfg : CacheConfig α) (env : Env α)
    (s : CacheState α) (hloaded : s.loaded = true) :
    (s.updates_since_reload + 1 < cfg.updates_per_reload →
      AugmentationCache.update cfg env s =
        .ok { s with updates_since_reload := s.updates_since_reload + 1 } ∧
      ∀ s2, AugmentationCache.update cfg env s = .ok s2 →
        s2.current_index = s.current_index ∧ s2.pool = s.pool) ∧
    (s.updates_since_reload + 1 ≥ cfg.updates_per_reload →
      ∀ pool2, drawPool env.upstream s.produced cfg.load_size = some pool2 →
        AugmentationCache.update cfg env s = .ok
          { pool := pool2,
            current_index := env.rng s.reloads % cfg.load_size,
            updates_since_reload := 0, loaded := true,
            reloads := s.reloads + 1,
            produced := s.produced + cfg.load_size } ∧
        (1 ≤ cfg.load_size →
          env.rng s.reloads % cfg.load_size < cfg.load_size)) := by
  have hnotfresh : ¬(s.loaded = false) := by simp [hloaded]
  constructor
  · intro hlt
    have hne : ¬(s.updates_since_reload + 1 ≥ cfg.updates_per_reload) := by omega
    have heq : AugmentationCache.update cfg env s =
        .ok { s with updates_since_reload := s.updates_since_reload + 1 } := by
      rw [AugmentationCache.update, if_neg hnotfresh, if_neg hne]
    refine ⟨heq, fun s2 h2 => ?_⟩
    rw [heq] at h2
    cases h2
    exact ⟨rfl, rfl⟩
  · intro hge pool2 hdraw
    refine ⟨?_, fun hL => Nat.mod_lt _ hL⟩
    rw [AugmentationCache.update, if_neg hnotfresh, if_pos hge,
      AugmentationCache.reload, hdraw]

/-- A loaded single-pool cache state used by witnesses: one cached
sample, fresh counter. -/
def wState : CacheState Int :=
  { pool := [wImg], current_index := 0, updates_since_reload := 0,
    loaded := true, reloads := 1, produced := 1 }

/-- Witness for C8: a non-reload `update()` on a concrete loaded state
keeps `current_index` and the Pool; the reload branch re-picks the
index in range. -/
theorem index_changes_only_at_reload_witness :
    (wState.updates_since_reload + 1 < (flipLRConfig Int).updates_per_reload →
      AugmentationCache.update (flipLRConfig Int)
          (mkEnv wProducer (fun _ => 0)) wState =
        .ok { wState with
              updates_since_reload := wState.updates_since_reload + 1 } ∧
      ∀ s2, AugmentationCache.update (flipLRConfig Int)
          (mkEnv wProducer (fun _ => 0)) wState = .ok s2 →
        s2.current_index = wState.current_index ∧ s2.pool = wState.pool) ∧
    (wState.updates_since_reload + 1 ≥ (flipLRConfig Int).updates_per_reload →
      ∀ pool2, drawPool (mkEnv wProducer (fun _ => 0)).upstream
          wState.produced (flipLRConfig Int).load_size = some pool2 →
        AugmentationCache.update (flipLRConfig Int)
            (mkEnv wProducer (fun _ => 0)) wState = .ok
          { pool := pool2,
            current_index := (mkEnv wProducer (fun _ => 0)).rng wState.reloads %
              (flipLRConfig Int).load_size,
            updates_since_reload := 0, loaded := true,
            reloads := wState.reloads + 1,
            produced := wState.produced + (flipLRConfig Int).load_size } ∧
        (1 ≤ (flipLRConfig Int).load_size →
          (mkEnv wProducer (fun _ => 0)).rng wState.reloads %
            (flipLRConfig Int).load_size < (flipLRConfig Int).load_size)) :=
  index_changes_only_at_reload (flipLRConfig Int)
    (mkEnv wProducer (fun _ => 0)) wState rfl

/-- C4: if the upstream producer fails during a reload attempt,
`update()` surfaces `UpstreamError` and the caller still holds the
previous state — the Pool and `current_index` of the last successful
reload stay intact and `resolve()` on the held state is unaffected.
In the batched variant, failure of any one of the N paired producers
(others may well succeed) aborts the whole reload with the pools
untouched: no mixed-generation Pool is observable. -/
theorem failed_reload_preserves_state (cfg : CacheConfig α) (env : Env α)
    (s : CacheState α) (benv : BatchEnv α) (bs : BatchState α) (j : Nat)
    (u : Nat → Option (DTImage α))
    (hloaded : s.loaded = true)
    (hdue : s.updates_since_reload + 1 ≥ cfg.updates_per_reload)
    (hfail : drawPool env.upstream s.produced cfg.load_size = none)
    (hbloaded : bs.loaded = true)
    (hbdue : bs.updates_since_reload + 1 ≥ cfg.updates_per_reload)
    (hju : benv.upstreams[j]? = some u)
    (hufail : drawPool u bs.produced cfg.load_size = none) :
    AugmentationCache.update cfg env s = .error .upstreamError ∧
    attemptUpdate cfg env s = (s, some .upstreamError) ∧
    AugmentationCache.resolve cfg (attemptUpdate cfg env s).1 =
      AugmentationCache.resolve cfg s ∧
    batchUpdate cfg benv bs = .error .upstreamError ∧
    attemptBatchUpdate cfg benv bs = (bs, some .upstreamError) ∧
    (attemptBatchUpdate cfg benv bs).1.pools = bs.pools := by
  have h1 : AugmentationCache.update cfg env s = .error .upstreamError := by
    rw [AugmentationCache.update, if_neg (by simp [hloaded]), if_pos hdue,
      AugmentationCache.reload, hfail]
  have h2 : attemptUpdate cfg env s = (s, some .upstreamError) := by
    rw [attemptUpdate, h1]
  have hbd : batchDraw cfg.load_size bs.produced benv.upstreams = none :=
    batchDraw_fails cfg.load_size bs.produced benv.upstreams j u hju hufail
  have h4 : batchUpdate cfg benv bs = .error .upstreamError := by
    rw [batchUpdate, if_neg (by simp [hbloaded]), if_pos hbdue,
      batchReload, hbd]
  have h5 : attemptBatchUpdate cfg benv bs = (bs, some .upstreamError) := by
    rw [attemptBatchUpdate, h4]
  exact ⟨h1, h2, by rw [h2], h4, h5, by rw [h5]⟩

/-- An always-failing upstream producer. -/
def failEnv : Env Int := { upstream := fun _ => none, rng := fun _ => 0 }

/-- A loaded single-pool state one update away from its reload. -/
def wStateDue : CacheState Int :=
  { pool := [wImg], current_index := 0, updates_since_reload := 1,
    loaded := true, reloads := 1, produced := 1 }

/-- A loaded two-pool batched state one update away from its reload. -/
def wBatchDue : BatchState Int :=
  { pools := [[wImg], [wImg]], current_index := 0, updates_since_reload := 1,
    loaded := true, reloads := 1, produced := 1 }

/-- A batched environment whose first producer always fails while the
second always succeeds: only some of the paired producers succeed. -/
def mixedBatchEnv : BatchEnv Int :=
  { upstreams := [fun _ => none, fun _ => some wImg], rng := fun _ => 0 }

/-- Witness for C4: a failing reload on concrete states, single and
batched (with one of the two paired producers succeeding), leaves both
states untouched. -/
theorem failed_reload_preserves_state_witness :
    AugmentationCache.update (flipLRConfig Int) failEnv wStateDue =
      .error .upstreamError ∧
    attemptUpdate (flipLRConfig Int) failEnv wStateDue =
      (wStateDue, some .upstreamError) ∧
    AugmentationCache.resolve (flipLRConfig Int)
        (attemptUpdate (flipLRConfig Int) failEnv wStateDue).1 =
      AugmentationCache.resolve (flipLRConfig Int) wStateDue ∧
    batchUpdate (flipLRConfig Int) mixedBatchEnv wBatchDue =
      .error .upstreamError ∧
    attemptBatchUpdate (flipLRConfig Int) mixedBatchEnv wBatchDue =
      (wBatchDue, some .upstreamError) ∧
    (attemptBatchUpdate (flipLRConfig Int) mixedBatchEnv wBatchDue).1.pools =
      wBatchDue.pools :=
  failed_reload_preserves_state (flipLRConfig Int) failEnv wStateDue
    mixedBatchEnv wBatchDue 0 (fun _ => none) rfl
    (by norm_num [flipLRConfig, wStateDue]) rfl rfl
    (by norm_num [flipLRConfig, wBatchDue]) rfl rfl

/-- C5: in the batched variant a single shared `current_index` and a
single shared replay counter parameterize every pool's resolution —
each output comes from its own pool's entry at that shared slot,
transformed at that shared replay index, so two pools holding equal
raw samples always produce equal outputs. -/
theorem batched_shared_index_and_replay (cfg : CacheConfig α)
    (bs : BatchState α) (outs : List (DTImage α))
    (h : batchResolve cfg bs = .ok outs) :
    (∀ (i : Nat) (pool : List (DTImage α)), bs.pools[i]? = some pool →
      ∃ out, resolveFromPool cfg bs.current_index bs.updates_since_reload pool =
        .ok out ∧ outs[i]? = some out) ∧
    (∀ (i j : Nat) (pool : List (DTImage α)),
      bs.pools[i]? = some pool → bs.pools[j]? = some pool →
      outs[i]? = outs[j]?) := by
  have hmain := batchResolveAux_entries cfg bs.current_index
    bs.updates_since_reload bs.pools outs h
  refine ⟨hmain, fun i j pool hi hj => ?_⟩
  obtain ⟨o1, ho1, hoi⟩ := hmain i pool hi
  obtain ⟨o2, ho2, hoj⟩ := hmain j pool hj
  rw [ho1] at ho2
  cases ho2
  rw [hoi, hoj]

/-- A loaded two-pool batched state with equal pools, fresh counter. -/
def wBatch : BatchState Int :=
  { pools := [[wImg], [wImg]], current_index := 0, updates_since_reload := 0,
    loaded := true, reloads := 1, produced := 1 }

/-- Witness for C5: the shared-parameterization property on a concrete
two-pool batched state. -/
theorem batched_shared_index_and_replay_witness :
    (∀ (i : Nat) (pool : List (DTImage Int)), wBatch.pools[i]? = some pool →
      ∃ out, resolveFromPool (flipLRConfig Int) wBatch.current_index
        wBatch.updates_since_reload pool = .ok out ∧
        ([wImg, wImg] : List (DTImage Int))[i]? = some out) ∧
    (∀ (i j : Nat) (pool : List (DTImage Int)),
      wBatch.pools[i]? = some pool → wBatch.pools[j]? = some pool →
      ([wImg, wImg] : List (DTImage Int))[i]? =
        ([wImg, wImg] : List (DTImage Int))[j]?) :=
  batched_shared_index_and_replay (flipLRConfig Int) wBatch [wImg, wImg] rfl
